import Mathlib

/-!
Shallow embedding of the Hue DTLS streaming session controller
(`HueDtlsController` in the repository's entertainment module) together with
proofs of the specified properties.

The controller state mirrors the mutable fields of the TypeScript class:

* `socketConnected` — whether `this.socket` is non-null;
* `opened`          — the `opened` flag (set by the socket `connect` event,
                      cleared by `close`);
* `skip`            — the throttle flag (`skip`), initialized to `false`;
* `lastUpdate` / `lastUpdateTimestamp` — the Last-Accepted-Update batch and
  its timestamp in milliseconds (`Date` modelled as `Nat` ms);
* `keepaliveActive` — whether the `setInterval` keepalive handle is live
  (`updateKeepaliveTimeout` non-null and not cleared).

`Buffer.writeUInt16BE` is modelled with Node's semantics: the value is
validated and an `ERR_OUT_OF_RANGE` error is raised when it is outside
`[0, 65535]`; otherwise the two big-endian bytes are stored.  Fallible
operations therefore return `Except String _`.  A transmission is the
`Option (List Nat)` of bytes written to the socket (`none` when nothing is
written to the transport).
-/

/-- One light's target color: `{ lightId: number, color: [number, number, number] }`.
JavaScript numbers are modelled as integers. -/
structure ColorUpdate where
  lightId : Int
  color : Int × Int × Int
deriving Repr, DecidableEq

/-- The mutable fields of `HueDtlsController`. -/
structure ControllerState where
  socketConnected : Bool
  opened : Bool
  skip : Bool
  lastUpdate : Option (List ColorUpdate)
  lastUpdateTimestamp : Option Nat
  keepaliveActive : Bool
deriving Repr, DecidableEq

/-- Field initializers of the class: `socket = null`, `opened = false`,
`skip = false`, `lastUpdate = null`, `lastUpdateTimestamp = null`,
`updateKeepaliveTimeout = null`. -/
def initialState : ControllerState :=
  { socketConnected := false, opened := false, skip := false,
    lastUpdate := none, lastUpdateTimestamp := none, keepaliveActive := false }

/-- Effect of `connect()` completing its body (lines 51-68): the DTLS socket
exists and the keepalive interval has been started with `setInterval(...)`.
The `opened` flag is not yet set; that happens in the socket `connect`
event handler. -/
def connectComplete (s : ControllerState) : ControllerState :=
  { s with socketConnected := true, keepaliveActive := true }

/-- Effect of the socket `connect` event handler (lines 52-55):
`this.opened = true` (and a `connected` notification is emitted). -/
def onConnectEvent (s : ControllerState) : ControllerState :=
  { s with opened := true }

/-- `close()` (lines 71-78): early-returns when `!this.opened`; otherwise
clears `opened`, ends the socket and emits the `close` notification.  The
returned `Bool` is whether the `close` notification was emitted.  Note that
the keepalive interval is not cleared. -/
def close (s : ControllerState) : ControllerState × Bool :=
  if s.opened then ({ s with opened := false }, true) else (s, false)

/-- `PACKET_HEADER`: the 9 magic bytes "HueStream". -/
def PACKET_HEADER : List Nat :=
  [0x48, 0x75, 0x65, 0x53, 0x74, 0x72, 0x65, 0x61, 0x6d]

/-- `Buffer.writeUInt16BE(value, offset)`: Node validates `value` and raises
`ERR_OUT_OF_RANGE` when it is not in `[0, 65535]`; otherwise it stores the
big-endian byte pair. -/
def writeUInt16BE (v : Int) : Except String (List Nat) :=
  if 0 ≤ v ∧ v ≤ 65535 then Except.ok [v.toNat / 256, v.toNat % 256]
  else Except.error "ERR_OUT_OF_RANGE"

/-- The 9 bytes written for one update inside the `forEach` of
`sendUpdatePacket` (lines 119-126): device type `0`, then light ID, R, G, B
as big-endian uint16. -/
def encodeEntry (u : ColorUpdate) : Except String (List Nat) := do
  let lid ← writeUInt16BE u.lightId
  let r ← writeUInt16BE u.color.1
  let g ← writeUInt16BE u.color.2.1
  let b ← writeUInt16BE u.color.2.2
  return [0] ++ lid ++ r ++ g ++ b

/-- The entry region of the message: entries in batch order, 9 bytes each. -/
def encodeEntries : List ColorUpdate → Except String (List Nat)
  | [] => Except.ok []
  | u :: rest => do
      let e ← encodeEntry u
      let es ← encodeEntries rest
      return e ++ es

/-- The fixed 16-byte header written by lines 109-116: the magic bytes, then
major version 1 at offset 9, minor version 0, sequence 0, two reserved zero
bytes, color space 0, reserved 0. -/
def headerBytes : List Nat :=
  PACKET_HEADER ++ [1, 0, 0, 0, 0, 0, 0]

/-- The full message built by `sendUpdatePacket` before the write:
`Buffer.alloc(16 + updates.length * 9)` filled by the header writes and the
per-entry writes. -/
def encodeMessage (updates : List ColorUpdate) : Except String (List Nat) := do
  let es ← encodeEntries updates
  return headerBytes ++ es

/-- `sendUpdatePacket(updates)` (lines 108-133): builds the message, then
writes it to the socket only when `this.opened` and the socket is non-null.
The result is the bytes written to the transport (`none` when no write
happens). -/
def sendUpdatePacket (s : ControllerState) (updates : List ColorUpdate) :
    Except String (Option (List Nat)) :=
  match encodeMessage updates with
  | Except.error e => Except.error e
  | Except.ok m =>
      Except.ok (if s.opened && s.socketConnected then some m else none)

/-- `sendUpdate(updates)` (lines 80-96): no-op when the socket is null or the
session is not opened; otherwise the throttle flag `skip` decides: when set,
it is cleared and the call drops; when clear, it is set, the
Last-Accepted-Update batch and timestamp are recorded, and the packet is
sent.  `now` is `Date.now()` in ms. -/
def sendUpdate (s : ControllerState) (updates : List ColorUpdate) (now : Nat) :
    ControllerState × Except String (Option (List Nat)) :=
  if !s.socketConnected || !s.opened then (s, Except.ok none)
  else if s.skip then ({ s with skip := false }, Except.ok none)
  else
    let s' := { s with skip := true, lastUpdate := some updates,
                       lastUpdateTimestamp := some now }
    (s', sendUpdatePacket s' updates)

/-- `updateKeepalive()` (lines 98-106), run on each 1 s interval tick: returns
early when a Last-Accepted-Update timestamp exists and `now - t <= 2000`;
otherwise retransmits `lastUpdate` when it is non-null.  The controller
state is never mutated by a tick. -/
def updateKeepalive (s : ControllerState) (now : Nat) :
    ControllerState × Except String (Option (List Nat)) :=
  match s.lastUpdateTimestamp with
  | some t =>
      if now - t ≤ 2000 then (s, Except.ok none)
      else
        match s.lastUpdate with
        | some u => (s, sendUpdatePacket s u)
        | none => (s, Except.ok none)
  | none =>
      match s.lastUpdate with
      | some u => (s, sendUpdatePacket s u)
      | none => (s, Except.ok none)

/-- The throttle decision embedded in lines 84-88 of `sendUpdate`, on the
`skip` flag alone: returns (transmit?, new flag).  `skip = false` is the
"admit" reading of the flag. -/
def throttleStep (skip : Bool) : Bool × Bool :=
  if skip then (false, false) else (true, true)

/-- The transmit decisions of `k` consecutive throttle decisions starting
from flag state `b`. -/
def runThrottle : Nat → Bool → List Bool
  | 0, _ => []
  | k + 1, b => (throttleStep b).1 :: runThrottle k (throttleStep b).2

/-- Any `lightId` or color component accepted by the fixed-width writes:
an unsigned 16-bit value, as in the data model. -/
def InRange16 (v : Int) : Prop := 0 ≤ v ∧ v ≤ 65535

/-- All fields of a `ColorUpdate` are unsigned 16-bit values. -/
def InRange (u : ColorUpdate) : Prop :=
  InRange16 u.lightId ∧ InRange16 u.color.1 ∧ InRange16 u.color.2.1 ∧
    InRange16 u.color.2.2

instance : DecidablePred InRange16 := fun v => by
  unfold InRange16; infer_instance

instance : DecidablePred InRange := fun u => by
  unfold InRange; infer_instance

/-- The big-endian byte pair of an in-range value (the pure content of a
successful `writeUInt16BE`). -/
def be16 (v : Int) : List Nat := [v.toNat / 256, v.toNat % 256]

/-- The pure 9 bytes of one in-range entry. -/
def entryBytes (u : ColorUpdate) : List Nat :=
  0 :: (be16 u.lightId ++ be16 u.color.1 ++ be16 u.color.2.1 ++
    be16 u.color.2.2)

/-- Reading a big-endian uint16 back from its two bytes
(`Buffer.readUInt16BE`). -/
def readUInt16BE (hi lo : Nat) : Int := ((hi * 256 + lo : Nat) : Int)

/-- Decoding the per-entry region of a message: 9 bytes per entry, skipping
the entry-type byte and reading light ID, R, G, B as big-endian uint16. -/
def decodeEntries : List Nat → List (Int × Int × Int × Int)
  | _t :: a :: b :: c :: d :: e :: f :: g :: h :: rest =>
      (readUInt16BE a b, readUInt16BE c d, readUInt16BE e f,
        readUInt16BE g h) :: decodeEntries rest
  | _ => []

/-- The tuple view of a batch entry, for round-trip statements. -/
def entryTuple (u : ColorUpdate) : Int × Int × Int × Int :=
  (u.lightId, u.color.1, u.color.2.1, u.color.2.2)

/-! ### Helper lemmas about the encoder -/

theorem writeUInt16BE_ok (v : Int) (h : InRange16 v) :
    writeUInt16BE v = Except.ok (be16 v) := by
  have h' : 0 ≤ v ∧ v ≤ 65535 := h
  unfold writeUInt16BE be16
  rw [if_pos h']

theorem encodeEntry_ok (u : ColorUpdate) (h : InRange u) :
    encodeEntry u = Except.ok (entryBytes u) := by
  obtain ⟨h1, h2, h3, h4⟩ := h
  simp [encodeEntry, writeUInt16BE_ok _ h1, writeUInt16BE_ok _ h2,
    writeUInt16BE_ok _ h3, writeUInt16BE_ok _ h4, entryBytes, Bind.bind,
    Except.bind, Pure.pure, Except.pure]

theorem encodeEntries_ok (b : List ColorUpdate) (h : ∀ u ∈ b, InRange u) :
    encodeEntries b = Except.ok ((b.map entryBytes).flatten) := by
  induction b with
  | nil => simp [encodeEntries]
  | cons u rest ih =>
      have hu : InRange u := h u (List.mem_cons_self u rest)
      have hr : ∀ v ∈ rest, InRange v := fun v hv => h v (List.mem_cons_of_mem u hv)
      simp [encodeEntries, encodeEntry_ok u hu, ih hr, Bind.bind, Except.bind, Pure.pure, Except.pure]

theorem encodeMessage_ok (b : List ColorUpdate) (h : ∀ u ∈ b, InRange u) :
    encodeMessage b = Except.ok (headerBytes ++ (b.map entryBytes).flatten) := by
  simp [encodeMessage, encodeEntries_ok b h, Bind.bind, Except.bind, Pure.pure, Except.pure]

theorem entryBytes_length (u : ColorUpdate) : (entryBytes u).length = 9 := by
  simp [entryBytes, be16]

theorem entriesBytes_length (b : List ColorUpdate) :
    ((b.map entryBytes).flatten).length = 9 * b.length := by
  induction b with
  | nil => simp
  | cons u rest ih =>
      simp [ih, entryBytes_length]
      ring

theorem headerBytes_length : headerBytes.length = 16 := by decide

theorem readUInt16BE_be16 (v : Int) (h : InRange16 v) :
    readUInt16BE (v.toNat / 256) (v.toNat % 256) = v := by
  unfold readUInt16BE
  have h1 : v.toNat / 256 * 256 + v.toNat % 256 = v.toNat := by omega
  rw [h1, Int.toNat_of_nonneg h.1]

theorem decodeEntries_encode (b : List ColorUpdate) (h : ∀ u ∈ b, InRange u) :
    decodeEntries ((b.map entryBytes).flatten) = b.map entryTuple := by
  induction b with
  | nil => simp [decodeEntries]
  | cons u rest ih =>
      have hu : InRange u := h u (List.mem_cons_self u rest)
      have hr : ∀ v ∈ rest, InRange v := fun v hv => h v (List.mem_cons_of_mem u hv)
      obtain ⟨h1, h2, h3, h4⟩ := hu
      simp only [List.map_cons, List.flatten_cons, entryBytes, be16,
        List.cons_append, List.append_assoc, List.nil_append]
      rw [decodeEntries]
      rw [readUInt16BE_be16 _ h1, readUInt16BE_be16 _ h2,
        readUInt16BE_be16 _ h3, readUInt16BE_be16 _ h4]
      simp [entryTuple, ih hr]

/-! ### Helper lemmas about the throttle and the state machine -/

theorem runThrottle_pattern (k : Nat) :
    runThrottle k false = (List.range k).map (fun i => decide (i % 2 = 0)) ∧
    runThrottle k true = (List.range k).map (fun i => decide (i % 2 = 1)) := by
  induction k with
  | zero => simp [runThrottle]
  | succ n ih =>
      constructor
      · rw [runThrottle, List.range_succ_eq_map, List.map_cons, List.map_map]
        show true :: runThrottle n true = _
        rw [ih.2]
        congr 1
        exact List.map_congr_left fun a _ => decide_eq_decide.mpr (by omega)
      · rw [runThrottle, List.range_succ_eq_map, List.map_cons, List.map_map]
        show false :: runThrottle n false = _
        rw [ih.1]
        congr 1
        exact List.map_congr_left fun a _ => decide_eq_decide.mpr (by omega)

theorem runThrottle_count (k : Nat) :
    (runThrottle k false).count true = (k + 1) / 2 ∧
    (runThrottle k true).count true = k / 2 := by
  induction k with
  | zero => simp [runThrottle]
  | succ n ih =>
      constructor
      · rw [runThrottle]
        show (true :: runThrottle n true).count true = _
        rw [List.count_cons, ih.2]
        simp
        omega
      · rw [runThrottle]
        show (false :: runThrottle n false).count true = _
        rw [List.count_cons, ih.1]
        simp

theorem updateKeepalive_state_id (s : ControllerState) (t : Nat) :
    (updateKeepalive s t).1 = s := by
  unfold updateKeepalive
  cases s.lastUpdateTimestamp with
  | none => cases s.lastUpdate <;> rfl
  | some ts =>
      by_cases h : t - ts ≤ 2000
      · simp [h]
      · cases s.lastUpdate <;> simp [h]

theorem sendUpdatePacket_no_write (s : ControllerState) (u : List ColorUpdate)
    (h : s.opened = false ∨ s.socketConnected = false) :
    ∀ m, sendUpdatePacket s u ≠ Except.ok (some m) := by
  intro m
  unfold sendUpdatePacket
  cases henc : encodeMessage u with
  | error e => simp
  | ok mm =>
      have hb : (s.opened && s.socketConnected) = false := by
        rcases h with h | h <;> simp [h]
      simp [hb]

/-! ### Claim theorems -/

/-- C2: Throttle decimation.  For every sequence of `K` throttle decisions
starting from the initial flag state (`skip = false`, i.e. admit), the calls
at odd 1-indexed positions (even 0-indexed) are precisely those that
transmit, and exactly `⌈K/2⌉ = (K+1)/2` of them transmit; moreover a
suppressed `sendUpdate` call on a connected session performs no transmission
and no state change other than flipping the flag back to admit. -/
theorem C2_throttle_decimation (K : Nat) :
    runThrottle K false = (List.range K).map (fun i => decide (i % 2 = 0)) ∧
    (runThrottle K false).count true = (K + 1) / 2 ∧
    (∀ (s : ControllerState) (u : List ColorUpdate) (now : Nat),
      s.socketConnected = true → s.opened = true → s.skip = true →
      sendUpdate s u now = ({ s with skip := false }, Except.ok none)) := by
  refine ⟨(runThrottle_pattern K).1, (runThrottle_count K).1, ?_⟩
  intro s u now hsock hop hskip
  unfold sendUpdate
  simp [hsock, hop, hskip]

/-- Witness for C2 at `K = 5` and at a concrete suppressed call. -/
theorem C2_throttle_decimation_witness :
    runThrottle 5 false = [true, false, true, false, true] ∧
    (runThrottle 5 false).count true = 3 ∧
    sendUpdate
        { socketConnected := true, opened := true, skip := true,
          lastUpdate := none, lastUpdateTimestamp := none,
          keepaliveActive := true } [⟨1, (2, 3, 4)⟩] 50 =
      ({ socketConnected := true, opened := true, skip := false,
         lastUpdate := none, lastUpdateTimestamp := none,
         keepaliveActive := true }, Except.ok none) := by
  have h := C2_throttle_decimation 5
  exact ⟨by rw [h.1]; rfl, by rw [h.2.1], h.2.2 _ [⟨1, (2, 3, 4)⟩] 50 rfl rfl rfl⟩

/-- C5 (code bug): `close()` does not cancel the keepalive interval.  The
source never calls `clearInterval`, so for every state the keepalive handle
survives `close`; in particular a session brought up by `connect` (which
starts the interval) still has a live keepalive timer after `close`
completed, although the claim and the spec require it to be cancelled. -/
theorem C5_close_does_not_cancel_keepalive :
    (∀ s : ControllerState, ((close s).1).keepaliveActive = s.keepaliveActive) ∧
    ((close (onConnectEvent (connectComplete initialState))).1).keepaliveActive
        = true ∧
    (close (onConnectEvent (connectComplete initialState))).2 = true := by
  refine ⟨fun s => ?_, rfl, rfl⟩
  unfold close
  by_cases h : s.opened <;> simp [h]

/-- C6: `close()` on a connected session emits the `close` notification and a
second `close()` is a no-op that emits nothing; `close()` on a session that
is not opened (never connected, or already closed) changes nothing and
emits nothing. -/
theorem C6_close_emits_once (s : ControllerState) :
    (s.opened = true →
      (close s).2 = true ∧ (close (close s).1).2 = false ∧
      (close (close s).1).1 = (close s).1) ∧
    (s.opened = false → close s = (s, false)) := by
  constructor
  · intro h
    unfold close
    simp [h]
  · intro h
    unfold close
    simp [h]

/-- Witness for C6: a connected session and the never-connected initial
state. -/
theorem C6_close_emits_once_witness :
    (close ⟨true, true, false, none, none, true⟩).2 = true ∧
    (close (close ⟨true, true, false, none, none, true⟩).1).2 = false ∧
    close initialState = (initialState, false) := by
  refine ⟨((C6_close_emits_once ⟨true, true, false, none, none, true⟩).1 rfl).1,
    ((C6_close_emits_once ⟨true, true, false, none, none, true⟩).1 rfl).2.1,
    (C6_close_emits_once initialState).2 rfl⟩

/-- C7: while the session is not opened (or the socket is null),
`sendUpdate` returns with no transmission and no state change, and a
keepalive tick never writes to the transport. -/
theorem C7_no_transmission_not_connected (s : ControllerState)
    (u : List ColorUpdate) (now : Nat)
    (h : s.opened = false ∨ s.socketConnected = false) :
    sendUpdate s u now = (s, Except.ok none) ∧
    ∀ m, (updateKeepalive s now).2 ≠ Except.ok (some m) := by
  constructor
  · unfold sendUpdate
    rcases h with h | h <;> simp [h]
  · intro m
    unfold updateKeepalive
    cases hts : s.lastUpdateTimestamp with
    | none =>
        cases hu : s.lastUpdate with
        | none => simp
        | some v => simpa using sendUpdatePacket_no_write s v h m
    | some ts =>
        by_cases hle : now - ts ≤ 2000
        · simp [hle]
        · cases hu : s.lastUpdate with
          | none => simp [hle]
          | some v => simpa [hle] using sendUpdatePacket_no_write s v h m

/-- Witness for C7: a closed session with a recorded last update. -/
theorem C7_no_transmission_not_connected_witness :
    sendUpdate ⟨true, false, false, some [⟨1, (2, 3, 4)⟩], some 0, true⟩
        [⟨9, (9, 9, 9)⟩] 5000 =
      (⟨true, false, false, some [⟨1, (2, 3, 4)⟩], some 0, true⟩,
        Except.ok none) ∧
    ∀ m, (updateKeepalive
        ⟨true, false, false, some [⟨1, (2, 3, 4)⟩], some 0, true⟩ 5000).2 ≠
      Except.ok (some m) :=
  C7_no_transmission_not_connected
    ⟨true, false, false, some [⟨1, (2, 3, 4)⟩], some 0, true⟩
    [⟨9, (9, 9, 9)⟩] 5000 (Or.inl rfl)

/-- C8: an admitted `sendUpdate` overwrites the Last-Accepted-Update batch
and timestamp with the submitted batch and the current time, while a
keepalive tick leaves the batch, the timestamp and the throttle flag (and
all other state) unchanged. -/
theorem C8_last_accepted_update (s : ControllerState) (u : List ColorUpdate)
    (now : Nat) (hsock : s.socketConnected = true) (hop : s.opened = true)
    (hskip : s.skip = false) :
    ((sendUpdate s u now).1.lastUpdate = some u ∧
      (sendUpdate s u now).1.lastUpdateTimestamp = some now) ∧
    (∀ t, (updateKeepalive s t).1.lastUpdate = s.lastUpdate ∧
      (updateKeepalive s t).1.lastUpdateTimestamp = s.lastUpdateTimestamp ∧
      (updateKeepalive s t).1.skip = s.skip) := by
  constructor
  · unfold sendUpdate
    simp [hsock, hop, hskip]
  · intro t
    rw [updateKeepalive_state_id s t]
    exact ⟨rfl, rfl, rfl⟩

/-- Witness for C8 on a concrete connected state. -/
theorem C8_last_accepted_update_witness :
    ((sendUpdate ⟨true, true, false, some [], some 1, true⟩
        [⟨1, (2, 3, 4)⟩] 500).1.lastUpdate = some [⟨1, (2, 3, 4)⟩] ∧
      (sendUpdate ⟨true, true, false, some [], some 1, true⟩
        [⟨1, (2, 3, 4)⟩] 500).1.lastUpdateTimestamp = some 500) ∧
    (updateKeepalive ⟨true, true, false, some [], some 1, true⟩ 9999).1.skip
        = false :=
  ⟨(C8_last_accepted_update ⟨true, true, false, some [], some 1, true⟩
      [⟨1, (2, 3, 4)⟩] 500 rfl rfl rfl).1,
    ((C8_last_accepted_update ⟨true, true, false, some [], some 1, true⟩
      [⟨1, (2, 3, 4)⟩] 500 rfl rfl rfl).2 9999).2.2⟩

/-- C1 (amended): keepalive timing.  With no Last-Accepted-Update, every tick
is a no-op.  With a Last-Accepted-Update batch recorded at time `T`, every
tick at or before `T + 2000` ms transmits nothing, and every tick strictly
after `T + 2000` ms on an open session retransmits exactly the encoding of
that batch, leaving the state unchanged (so every subsequent tick does the
same until a new admitted update arrives). -/
theorem C1_keepalive_timing (s : ControllerState) (now : Nat) :
    (s.lastUpdateTimestamp = none → s.lastUpdate = none →
      updateKeepalive s now = (s, Except.ok none)) ∧
    (∀ t u, s.lastUpdateTimestamp = some t → s.lastUpdate = some u →
      s.opened = true → s.socketConnected = true →
      ((now ≤ t + 2000 → updateKeepalive s now = (s, Except.ok none)) ∧
       (t + 2000 < now →
         updateKeepalive s now = (s, (encodeMessage u).map some)))) := by
  constructor
  · intro h1 h2
    simp [updateKeepalive, h1, h2]
  · intro t u ht hu hop hsock
    constructor
    · intro hle
      have hsub : now - t ≤ 2000 := by omega
      simp [updateKeepalive, ht, hsub]
    · intro hlt
      have hsub : ¬ (now - t ≤ 2000) := by omega
      cases henc : encodeMessage u with
      | error e =>
          simp [updateKeepalive, ht, hu, hsub, sendUpdatePacket, henc,
            Except.map]
      | ok m =>
          simp [updateKeepalive, ht, hu, hsub, sendUpdatePacket, henc,
            Except.map, hop, hsock]

/-- C1 counterexample to the claim as stated: a keepalive tick at exactly
`T + 2000` ms (here `T = 1000`, the tick at `3000`) transmits nothing, while
the claim requires the first tick at or after `T + 2s` to retransmit. -/
theorem C1_tick_at_boundary_no_retransmit :
    updateKeepalive
        ⟨true, true, true, some [⟨1, (2, 3, 4)⟩], some 1000, true⟩ 3000 =
      (⟨true, true, true, some [⟨1, (2, 3, 4)⟩], some 1000, true⟩,
        Except.ok none) ∧
    1000 + 2000 ≤ 3000 := ⟨rfl, by omega⟩

/-- Witness for C1: a tick at 2500 ms (before the window expires) is silent,
the tick at 3001 ms retransmits the stored batch's bytes, and ticks with no
Last-Accepted-Update are no-ops. -/
theorem C1_keepalive_timing_witness :
    updateKeepalive
        ⟨true, true, true, some [⟨1, (0, 65535, 0)⟩], some 1000, true⟩ 3001 =
      (⟨true, true, true, some [⟨1, (0, 65535, 0)⟩], some 1000, true⟩,
        Except.ok (some [72, 117, 101, 83, 116, 114, 101, 97, 109, 1, 0, 0,
          0, 0, 0, 0, 0, 0, 1, 0, 0, 255, 255, 0, 0])) ∧
    updateKeepalive
        ⟨true, true, true, some [⟨1, (0, 65535, 0)⟩], some 1000, true⟩ 2500 =
      (⟨true, true, true, some [⟨1, (0, 65535, 0)⟩], some 1000, true⟩,
        Except.ok none) ∧
    updateKeepalive initialState 999999 = (initialState, Except.ok none) := by
  have h3001 := ((C1_keepalive_timing
    ⟨true, true, true, some [⟨1, (0, 65535, 0)⟩], some 1000, true⟩ 3001).2
    1000 [⟨1, (0, 65535, 0)⟩] rfl rfl rfl rfl).2 (by omega)
  have h2500 := ((C1_keepalive_timing
    ⟨true, true, true, some [⟨1, (0, 65535, 0)⟩], some 1000, true⟩ 2500).2
    1000 [⟨1, (0, 65535, 0)⟩] rfl rfl rfl rfl).1 (by omega)
  have hnone := (C1_keepalive_timing initialState 999999).1 rfl rfl
  exact ⟨by rw [h3001]; rfl, h2500, hnone⟩

/-- C3: frame shape.  For every batch of `N` entries whose fields are
unsigned 16-bit values (the `ColorUpdate` data model), encoding succeeds and
produces exactly `16 + 9 * N` bytes whose first 16 bytes are the fixed
header, independent of the batch: the 9 magic bytes, major version 1 at
offset 9, minor version 0, sequence 0, two reserved zero bytes, color
space 0 and a reserved zero byte. -/
theorem C3_frame_shape (b : List ColorUpdate) (h : ∀ u ∈ b, InRange u) :
    ∃ m, encodeMessage b = Except.ok m ∧
      m.length = 16 + 9 * b.length ∧
      m.take 16 = headerBytes ∧
      headerBytes = [0x48, 0x75, 0x65, 0x53, 0x74, 0x72, 0x65, 0x61, 0x6d,
        1, 0, 0, 0, 0, 0, 0] := by
  refine ⟨_, encodeMessage_ok b h, ?_, ?_, by decide⟩
  · rw [List.length_append, headerBytes_length, entriesBytes_length]
  · rw [show (16 : Nat) = headerBytes.length from rfl, List.take_left]

/-- Witness for C3 on batches of size 1 and 0. -/
theorem C3_frame_shape_witness :
    (∃ m, encodeMessage [⟨1, (2, 3, 4)⟩] = Except.ok m ∧
      m.length = 16 + 9 * 1 ∧ m.take 16 = headerBytes) ∧
    (∃ m, encodeMessage [] = Except.ok m ∧ m.length = 16 + 9 * 0) := by
  constructor
  · obtain ⟨m, hm, hl, ht, _⟩ := C3_frame_shape [⟨1, (2, 3, 4)⟩] (by decide)
    exact ⟨m, hm, hl, ht⟩
  · obtain ⟨m, hm, hl, _, _⟩ := C3_frame_shape [] (by decide)
    exact ⟨m, hm, hl⟩

/-- C4: round trip.  For every batch whose fields are in `[0, 65535]`,
decoding the per-entry region (the bytes after the 16-byte header, 9 bytes
per entry: entry type, then light ID, R, G, B as big-endian uint16) recovers
exactly the original `(lightId, R, G, B)` tuples in the original order, with
no entry truncated, dropped or reordered. -/
theorem C4_encode_roundtrip (b : List ColorUpdate) (h : ∀ u ∈ b, InRange u) :
    ∃ m, encodeMessage b = Except.ok m ∧
      decodeEntries (m.drop 16) = b.map entryTuple ∧
      (decodeEntries (m.drop 16)).length = b.length := by
  refine ⟨_, encodeMessage_ok b h, ?_, ?_⟩ <;>
    rw [show (16 : Nat) = headerBytes.length from rfl, List.drop_left,
      decodeEntries_encode b h]
  simp

/-- Witness for C4 on a concrete two-entry batch. -/
theorem C4_encode_roundtrip_witness :
    ∃ m, encodeMessage [⟨1, (2, 3, 4)⟩, ⟨500, (65535, 0, 256)⟩] =
        Except.ok m ∧
      decodeEntries (m.drop 16) =
        [(1, 2, 3, 4), (500, 65535, 0, 256)] := by
  obtain ⟨m, hm, hd, _⟩ :=
    C4_encode_roundtrip [⟨1, (2, 3, 4)⟩, ⟨500, (65535, 0, 256)⟩] (by decide)
  exact ⟨m, hm, by rw [hd]; rfl⟩

/-- C9 counterexample to the claim as stated: a `lightId` of `65536 = 2^16`
does not wrap around to `0`; the fixed-width write rejects it and encoding
fails with a range error. -/
theorem C9_out_of_range_is_error :
    encodeMessage [⟨65536, (0, 0, 0)⟩] = Except.error "ERR_OUT_OF_RANGE" ∧
    (encodeMessage [⟨65536, (0, 0, 0)⟩]).isOk = false ∧
    encodeMessage [⟨-1, (0, 0, 0)⟩] = Except.error "ERR_OUT_OF_RANGE" :=
  ⟨rfl, rfl, rfl⟩

/-- C9 (amended): encoding never fails on batches whose `lightId` and color
components are all in `[0, 65535]`; a component outside that range makes the
fixed-width write fail with a range error instead of wrapping modulo
`2^16`. -/
theorem C9_encode_total_in_range (b : List ColorUpdate)
    (h : ∀ u ∈ b, InRange u) :
    ∃ m, encodeMessage b = Except.ok m :=
  ⟨_, encodeMessage_ok b h⟩

/-- Witness for C9 on a concrete batch at the range boundaries. -/
theorem C9_encode_total_in_range_witness :
    ∃ m, encodeMessage [⟨0, (65535, 0, 65535)⟩, ⟨65535, (0, 0, 0)⟩] =
      Except.ok m :=
  C9_encode_total_in_range [⟨0, (65535, 0, 65535)⟩, ⟨65535, (0, 0, 0)⟩]
    (by decide)

/-- C10 counterexample to the claim as stated: for the 3-light batch with
first light ID `1`, the 43-byte frame has bytes 16-17 equal to `[0, 0]`
(byte 16 is the entry-type byte), not the big-endian light ID `[0, 1]`. -/
theorem C10_bytes_16_17_are_not_lightId :
    encodeMessage [⟨1, (2, 3, 4)⟩, ⟨5, (6, 7, 8)⟩, ⟨9, (10, 11, 12)⟩] =
      Except.ok [72, 117, 101, 83, 116, 114, 101, 97, 109, 1, 0, 0, 0, 0, 0,
        0, 0, 0, 1, 0, 2, 0, 3, 0, 4, 0, 0, 5, 0, 6, 0, 7, 0, 8, 0, 0, 9, 0,
        10, 0, 11, 0, 12] ∧
    (([72, 117, 101, 83, 116, 114, 101, 97, 109, 1, 0, 0, 0, 0, 0, 0, 0, 0,
        1, 0, 2, 0, 3, 0, 4, 0, 0, 5, 0, 6, 0, 7, 0, 8, 0, 0, 9, 0, 10, 0,
        11, 0, 12] : List Nat).drop 16).take 2 = [0, 0] ∧
    be16 (1 : Int) = [0, 1] ∧ ([0, 0] : List Nat) ≠ [0, 1] :=
  ⟨rfl, rfl, rfl, by decide⟩

theorem be16_length (v : Int) : (be16 v).length = 2 := rfl

/-- C10 (amended): a batch of exactly 3 in-range lights encodes to a 43-byte
frame in which bytes 17-18 are the first light's ID big-endian and bytes
23-24 are its B channel big-endian (byte 16 is the first entry's type
byte). -/
theorem C10_three_light_frame (u1 u2 u3 : ColorUpdate)
    (h1 : InRange u1) (h2 : InRange u2) (h3 : InRange u3) :
    ∃ m, encodeMessage [u1, u2, u3] = Except.ok m ∧ m.length = 43 ∧
      (m.drop 17).take 2 = be16 u1.lightId ∧
      (m.drop 23).take 2 = be16 u1.color.2.2 := by
  have hall : ∀ u ∈ [u1, u2, u3], InRange u := by
    intro u hu
    simp only [List.mem_cons, List.not_mem_nil, or_false] at hu
    rcases hu with rfl | rfl | rfl <;> assumption
  have hm : encodeMessage [u1, u2, u3] =
      Except.ok ((headerBytes ++ [0]) ++
        (be16 u1.lightId ++
          ((be16 u1.color.1 ++ (be16 u1.color.2.1 ++ be16 u1.color.2.2)) ++
            (entryBytes u2 ++ entryBytes u3)))) := by
    rw [encodeMessage_ok _ hall]
    simp [entryBytes, List.append_assoc]
  refine ⟨_, hm, ?_, ?_, ?_⟩
  · simp [headerBytes, PACKET_HEADER, be16, entryBytes]
  · rw [List.drop_left' (by simp [headerBytes, PACKET_HEADER] :
        (headerBytes ++ [0]).length = 17),
      List.take_left' (be16_length u1.lightId)]
  · have hassoc : (headerBytes ++ [0]) ++
        (be16 u1.lightId ++
          ((be16 u1.color.1 ++ (be16 u1.color.2.1 ++ be16 u1.color.2.2)) ++
            (entryBytes u2 ++ entryBytes u3))) =
        ((((headerBytes ++ [0]) ++ be16 u1.lightId) ++ be16 u1.color.1) ++
            be16 u1.color.2.1) ++
          (be16 u1.color.2.2 ++ (entryBytes u2 ++ entryBytes u3)) := by
      simp [List.append_assoc]
    rw [hassoc,
      List.drop_left' (by simp [headerBytes, PACKET_HEADER, be16] :
        ((((headerBytes ++ [0]) ++ be16 u1.lightId) ++ be16 u1.color.1) ++
          be16 u1.color.2.1).length = 23),
      List.take_left' (be16_length u1.color.2.2)]

/-- Witness for C10 on a concrete 3-light batch with first light ID 1 and
first B channel 4. -/
theorem C10_three_light_frame_witness :
    ∃ m, encodeMessage [⟨1, (2, 3, 4)⟩, ⟨5, (6, 7, 8)⟩, ⟨9, (10, 11, 12)⟩] =
        Except.ok m ∧ m.length = 43 ∧
      (m.drop 17).take 2 = [0, 1] ∧ (m.drop 23).take 2 = [0, 4] := by
  obtain ⟨m, hm, hl, hid, hb⟩ := C10_three_light_frame
    ⟨1, (2, 3, 4)⟩ ⟨5, (6, 7, 8)⟩ ⟨9, (10, 11, 12)⟩
    (by decide) (by decide) (by decide)
  exact ⟨m, hm, hl, by rw [hid]; rfl, by rw [hb]; rfl⟩
